import Mathlib

/-!
# Verification of the Rockhead snap-operator add-on

A shallow embedding of `RockheadSnapOps.py` (a Blender add-on providing a
"cursor to circumcenter" operator and a "look at cursor" operator) and proofs
about it.

Modelling conventions:
* `mathutils.Vector` (3 float components) is modelled as `Vec3`, a record of
  three rationals; floating-point rounding is abstracted away, arithmetic is
  exact.
* Equidistance is stated with squared distances (`dist2`); over ℚ two
  nonnegative distances are equal iff their squares are.
* Python code that raises an exception is modelled with an explicit
  exception-carrying result (`PyResult`, `Except`, `ExecStatus.exn`).
  In particular, line 34 of the source calls `report(...)` where no global
  `report` exists (the function is a plain module-level function, there is no
  `self`), so the collinear branch of `calculate_circumcenter_3d` raises
  `NameError` before reaching its `return`.
* `np.linalg.solve` on a 3×3 system is modelled by Cramer's rule, raising
  (`none`) exactly when the determinant is zero, which is when
  `numpy.linalg.LinAlgError` is raised for a singular matrix.
-/

/-- A 3-component vector of rationals, modelling `mathutils.Vector`. -/
@[ext]
structure Vec3 where
  x : ℚ
  y : ℚ
  z : ℚ
deriving DecidableEq

namespace Vec3

/-- The zero vector. -/
def zero : Vec3 := ⟨0, 0, 0⟩

instance : Add Vec3 := ⟨fun a b => ⟨a.x + b.x, a.y + b.y, a.z + b.z⟩⟩

instance : Sub Vec3 := ⟨fun a b => ⟨a.x - b.x, a.y - b.y, a.z - b.z⟩⟩

instance : Neg Vec3 := ⟨fun a => ⟨-a.x, -a.y, -a.z⟩⟩

instance : HMul ℚ Vec3 Vec3 := ⟨fun q v => ⟨q * v.x, q * v.y, q * v.z⟩⟩

instance : HDiv Vec3 ℚ Vec3 := ⟨fun v q => ⟨v.x / q, v.y / q, v.z / q⟩⟩

@[simp] lemma add_x (a b : Vec3) : (a + b).x = a.x + b.x := rfl

@[simp] lemma add_y (a b : Vec3) : (a + b).y = a.y + b.y := rfl

@[simp] lemma add_z (a b : Vec3) : (a + b).z = a.z + b.z := rfl

@[simp] lemma sub_x (a b : Vec3) : (a - b).x = a.x - b.x := rfl

@[simp] lemma sub_y (a b : Vec3) : (a - b).y = a.y - b.y := rfl

@[simp] lemma sub_z (a b : Vec3) : (a - b).z = a.z - b.z := rfl

@[simp] lemma neg_x (a : Vec3) : (-a).x = -a.x := rfl

@[simp] lemma neg_y (a : Vec3) : (-a).y = -a.y := rfl

@[simp] lemma neg_z (a : Vec3) : (-a).z = -a.z := rfl

@[simp] lemma smul_x (q : ℚ) (v : Vec3) : (q * v).x = q * v.x := rfl

@[simp] lemma smul_y (q : ℚ) (v : Vec3) : (q * v).y = q * v.y := rfl

@[simp] lemma smul_z (q : ℚ) (v : Vec3) : (q * v).z = q * v.z := rfl

@[simp] lemma divq_x (v : Vec3) (q : ℚ) : (v / q).x = v.x / q := rfl

@[simp] lemma divq_y (v : Vec3) (q : ℚ) : (v / q).y = v.y / q := rfl

@[simp] lemma divq_z (v : Vec3) (q : ℚ) : (v / q).z = v.z / q := rfl

/-- Dot product, modelling `Vector.dot`. -/
def dot (a b : Vec3) : ℚ := a.x * b.x + a.y * b.y + a.z * b.z

/-- Squared length, modelling `Vector.length_squared`. -/
def length_squared (a : Vec3) : ℚ := a.dot a

/-- Cross product (used only to state non-collinearity). -/
def cross (a b : Vec3) : Vec3 :=
  ⟨a.y * b.z - a.z * b.y, a.z * b.x - a.x * b.z, a.x * b.y - a.y * b.x⟩

lemma sub_eq_zero_iff (a b : Vec3) : a - b = Vec3.zero ↔ a = b := by
  constructor
  · intro h
    have hx := congrArg Vec3.x h
    have hy := congrArg Vec3.y h
    have hz := congrArg Vec3.z h
    simp [Vec3.zero] at hx hy hz
    ext <;> simp [sub_eq_zero] at hx hy hz ⊢ <;> assumption
  · intro h
    subst h
    ext <;> simp [Vec3.zero]

lemma length_squared_eq_zero_iff (v : Vec3) :
    v.length_squared = 0 ↔ v = Vec3.zero := by
  constructor
  · intro h
    simp only [length_squared, dot] at h
    have hx : v.x * v.x = 0 := by nlinarith [mul_self_nonneg v.x, mul_self_nonneg v.y, mul_self_nonneg v.z]
    have hy : v.y * v.y = 0 := by nlinarith [mul_self_nonneg v.x, mul_self_nonneg v.y, mul_self_nonneg v.z]
    have hz : v.z * v.z = 0 := by nlinarith [mul_self_nonneg v.x, mul_self_nonneg v.y, mul_self_nonneg v.z]
    ext
    · exact mul_self_eq_zero.mp hx
    · exact mul_self_eq_zero.mp hy
    · exact mul_self_eq_zero.mp hz
  · intro h
    subst h
    simp [length_squared, dot, Vec3.zero]

end Vec3

/-- Squared distance between two points (the code reports
`(circumcenter - p[i]).length`; squared distances are equal iff distances
are). -/
def dist2 (a b : Vec3) : ℚ := (a - b).length_squared

/-- Three points are collinear iff the cross product of the two edge vectors
from `p1` vanishes. -/
def collinear3 (p1 p2 p3 : Vec3) : Prop :=
  Vec3.cross (p2 - p1) (p3 - p1) = Vec3.zero

instance (p1 p2 p3 : Vec3) : Decidable (collinear3 p1 p2 p3) := by
  unfold collinear3
  infer_instance

/-- Result of a Python function that may return a value, return `None`, or
raise an uncaught exception (carrying the exception's class name). -/
inductive PyResult where
  | ok : Option Vec3 → PyResult
  | exn : String → PyResult
deriving DecidableEq

/-- The inner helper of `calculate_circumcenter_3d` (source lines 21–23):
`(u*p1 + v*p2 + w*p3) / (u + v + w)`.  Dividing by zero raises
`ZeroDivisionError`, which the only caller catches and turns into `None`;
we model that by returning `none` when the weight sum is zero. -/
def barycentric_to_world (p1 p2 p3 : Vec3) (u v w : ℚ) : Option Vec3 :=
  if u + v + w = 0 then none
  else some ((u * p1 + v * p2 + w * p3) / (u + v + w))

/-- `calculate_circumcenter_3d` (source lines 19–44).

Note on the collinear branch (source lines 33–35): it calls
`report({'WARNING'}, ...)`, but no global or builtin `report` exists in the
module, so Python raises `NameError` before the `return (p1+p2+p3)/3` line is
reached.  We model the branch as raising `NameError`. -/
def calculate_circumcenter_3d (p1 p2 p3 : Vec3) : PyResult :=
  let a := p3 - p2
  let b := p1 - p3
  let c := p2 - p1
  let u := a.length_squared * (b.dot c)
  let v := b.length_squared * (c.dot a)
  let w := c.length_squared * (b.dot a)
  if u + v + w = 0 then
    PyResult.exn "NameError"
  else
    match barycentric_to_world p1 p2 p3 u v w with
    | none => PyResult.ok none
    | some center => PyResult.ok (some center)

/-- Weight `u` of the barycentric circumcenter formula, as both the source
(line 29) and the spec write it: `|p3-p2|² · ((p1-p3)·(p2-p1))`. -/
def u3 (p1 p2 p3 : Vec3) : ℚ :=
  (p3 - p2).length_squared * ((p1 - p3).dot (p2 - p1))

/-- Weight `v` (source line 30): `|p1-p3|² · ((p2-p1)·(p3-p2))`. -/
def v3 (p1 p2 p3 : Vec3) : ℚ :=
  (p1 - p3).length_squared * ((p2 - p1).dot (p3 - p2))

/-- Weight `w` (source line 31): `|p2-p1|² · ((p1-p3)·(p3-p2))`. -/
def w3 (p1 p2 p3 : Vec3) : ℚ :=
  (p2 - p1).length_squared * ((p1 - p3).dot (p3 - p2))

/-- The weight sum `u + v + w`. -/
def s3 (p1 p2 p3 : Vec3) : ℚ := u3 p1 p2 p3 + v3 p1 p2 p3 + w3 p1 p2 p3

/-- The unnormalised barycentric combination `u*p1 + v*p2 + w*p3`. -/
def N3 (p1 p2 p3 : Vec3) : Vec3 :=
  u3 p1 p2 p3 * p1 + v3 p1 p2 p3 * p2 + w3 p1 p2 p3 * p3

/-- The barycentric combination `(u*p1 + v*p2 + w*p3)/(u+v+w)` named in the
claim/spec; identical to what the non-degenerate branch of the code
computes. -/
def center3 (p1 p2 p3 : Vec3) : Vec3 := N3 p1 p2 p3 / s3 p1 p2 p3

/-- Shape of `calculate_circumcenter_3d`: the collinear branch raises, the
other branch returns the barycentric combination. -/
lemma calc3d_shape (p1 p2 p3 : Vec3) :
    calculate_circumcenter_3d p1 p2 p3 =
      if s3 p1 p2 p3 = 0 then PyResult.exn "NameError"
      else PyResult.ok (some (center3 p1 p2 p3)) := by
  by_cases h : s3 p1 p2 p3 = 0
  · simp only [s3, u3, v3, w3] at h
    simp [calculate_circumcenter_3d, h, s3, u3, v3, w3]
  · simp only [s3, u3, v3, w3] at h
    simp [calculate_circumcenter_3d, barycentric_to_world, h, s3, u3, v3, w3,
      center3, N3]

/-- Determinant of the 3×3 matrix with rows `r1, r2, r3`. -/
def det3 (r1 r2 r3 : Vec3) : ℚ :=
  r1.x * (r2.y * r3.z - r2.z * r3.y)
    - r1.y * (r2.x * r3.z - r2.z * r3.x)
    + r1.z * (r2.x * r3.y - r2.y * r3.x)

/-- Row 1 of the system matrix of `calculate_circumcenter_4d`
(source line 61): `[2*(B[0]-A[0]), 2*(B[1]-A[1]), 2*(B[2]-A[2])]`. -/
def mrow (P Q : Vec3) : Vec3 :=
  ⟨2 * (Q.x - P.x), 2 * (Q.y - P.y), 2 * (Q.z - P.z)⟩

/-- An entry of the right-hand side vector (source lines 68–70):
`|Q|² - |P|²` written out componentwise. -/
def rhsEntry (P Q : Vec3) : ℚ :=
  Q.x ^ 2 + Q.y ^ 2 + Q.z ^ 2 - P.x ^ 2 - P.y ^ 2 - P.z ^ 2

/-- Cramer's-rule solution of the 3×3 system with rows `r1 r2 r3` and
right-hand side `(b1, b2, b3)`; defined only up to the caller checking the
determinant is nonzero. -/
def cramer3 (r1 r2 r3 : Vec3) (b1 b2 b3 : ℚ) : Vec3 :=
  let d := det3 r1 r2 r3
  ⟨det3 ⟨b1, r1.y, r1.z⟩ ⟨b2, r2.y, r2.z⟩ ⟨b3, r3.y, r3.z⟩ / d,
   det3 ⟨r1.x, b1, r1.z⟩ ⟨r2.x, b2, r2.z⟩ ⟨r3.x, b3, r3.z⟩ / d,
   det3 ⟨r1.x, r1.y, b1⟩ ⟨r2.x, r2.y, b2⟩ ⟨r3.x, r3.y, b3⟩ / d⟩

/-- `calculate_circumcenter_4d` (source lines 47–79): builds the 3×3 system
with rows `2*(B-A), 2*(C-B), 2*(D-C)` and right-hand side of squared-norm
differences, and solves it.  `np.linalg.solve` raises `LinAlgError` exactly
when the matrix is singular; the `except` clause turns that into `None`,
modelled as `none`.  The solve itself is modelled by Cramer's rule. -/
def calculate_circumcenter_4d (A B C D : Vec3) : Option Vec3 :=
  let r1 := mrow A B
  let r2 := mrow B C
  let r3 := mrow C D
  if det3 r1 r2 r3 = 0 then none
  else some (cramer3 r1 r2 r3 (rhsEntry A B) (rhsEntry B C) (rhsEntry C D))

/-- Four points are coplanar iff the three edge vectors from `A` have zero
determinant. -/
def coplanar4 (A B C D : Vec3) : Prop :=
  det3 (B - A) (C - A) (D - A) = 0

instance (A B C D : Vec3) : Decidable (coplanar4 A B C D) := by
  unfold coplanar4
  infer_instance

/-- Outcome status of an operator's `execute`: Blender's `{'FINISHED'}` or
`{'CANCELLED'}`, or an uncaught Python exception escaping to the host. -/
inductive ExecStatus where
  | finished : ExecStatus
  | cancelled : ExecStatus
  | exn : String → ExecStatus
deriving DecidableEq

/-- Outcome of `MoveToCircumcenterOperator.execute`: the returned status, the
scene cursor location after the call, and whether the "4 points are coplanar"
warning of source line 157 was reported. -/
structure MtcOutcome where
  status : ExecStatus
  cursor : Vec3
  warnedCoplanar : Bool
deriving DecidableEq

/-- `MoveToCircumcenterOperator.execute` on a 3-point selection
(source lines 149–169): compute the 3-point circumcenter; `None` reports an
error and returns `CANCELLED` leaving the cursor alone; otherwise the cursor
is moved to the result (line 167) and `FINISHED` is returned.  An exception
raised by `calculate_circumcenter_3d` propagates to the host. -/
def mtc_execute3 (p0 p1 p2 cursor : Vec3) : MtcOutcome :=
  match calculate_circumcenter_3d p0 p1 p2 with
  | PyResult.exn e => ⟨ExecStatus.exn e, cursor, false⟩
  | PyResult.ok none => ⟨ExecStatus.cancelled, cursor, false⟩
  | PyResult.ok (some c) => ⟨ExecStatus.finished, c, false⟩

/-- `MoveToCircumcenterOperator.execute` on a 4-point selection
(source lines 152–169): compute the 4-point circumcenter; on `None`, fall
back to `calculate_circumcenter_3d` on the first three points and, if that
is not `None`, report the coplanarity warning (lines 154–157); a `None`
result reports an error and returns `CANCELLED`; otherwise the cursor is
moved and `FINISHED` returned. -/
def mtc_execute4 (p0 p1 p2 p3 cursor : Vec3) : MtcOutcome :=
  match calculate_circumcenter_4d p0 p1 p2 p3 with
  | some c => ⟨ExecStatus.finished, c, false⟩
  | none =>
    match calculate_circumcenter_3d p0 p1 p2 with
    | PyResult.exn e => ⟨ExecStatus.exn e, cursor, false⟩
    | PyResult.ok none => ⟨ExecStatus.cancelled, cursor, false⟩
    | PyResult.ok (some c) => ⟨ExecStatus.finished, c, true⟩

/-- The three axis choices of `LookAtCursorOperator.axis`. -/
inductive Axis3 where
  | X : Axis3
  | Y : Axis3
  | Z : Axis3
deriving DecidableEq

/-- The rotation state of an object: either whatever rotation it had before
the operator ran (tagged with an arbitrary index so distinct originals stay
distinct), or the rotation produced by `to_track_quat` on a direction and an
axis pair.  The quaternion itself is abstracted: the claims only concern
which objects get a new rotation and from which direction it was built. -/
inductive Rot where
  | original : ℕ → Rot
  | tracked : Vec3 → Axis3 → Axis3 → Rot
deriving DecidableEq

/-- A selected object: world location and current rotation. -/
structure SceneObj where
  loc : Vec3
  rot : Rot
deriving DecidableEq

/-- Modelled from the spec: `mathutils.Vector.to_track_quat` (host library,
not part of this repository).  Per the spec's error taxonomy
("Zero-Direction (orient op, per-object skip)") and the operator's own
`except ValueError` handler with message "Are the object and cursor in the
same location?", a zero-length direction raises `ValueError`; otherwise a
rotation tracking the direction is produced.  The preceding
`direction.normalize()` only rescales a nonzero direction (and leaves the
zero vector zero), so it is dropped: no downstream check depends on the
scale. -/
def to_track_quat (direction : Vec3) (axis up : Axis3) : Except String Rot :=
  if direction = Vec3.zero then Except.error "ValueError"
  else Except.ok (Rot.tracked direction axis up)

/-- The track/up axis pair chosen by the `if/elif/else` on source
lines 218–223: X→(X,Z), Y→(Y,Z), otherwise (Z,Y). -/
def trackAxes : Axis3 → Axis3 × Axis3
  | Axis3.X => (Axis3.X, Axis3.Z)
  | Axis3.Y => (Axis3.Y, Axis3.Z)
  | Axis3.Z => (Axis3.Z, Axis3.Y)

/-- The direction vector of source lines 212–214:
`cursor_location - obj.location`, or its reverse when `reverse` is set. -/
def look_direction (reverse : Bool) (cursor loc : Vec3) : Vec3 :=
  if reverse then loc - cursor else cursor - loc

/-- The body of the `for obj in context.selected_objects` loop of
`LookAtCursorOperator.execute` (source lines 210–229), as a recursion over
the selected-object list.  A `ValueError` from `to_track_quat` reports an
error and `return {'CANCELLED'}` *from inside the loop* (lines 224–226), so
the remaining objects (including the failing one) keep their rotations;
objects already processed have had `obj.rotation_euler` assigned
(line 228). -/
def lookAt_go (reverse : Bool) (axis : Axis3) (cursor : Vec3) :
    List SceneObj → ExecStatus × List SceneObj
  | [] => (ExecStatus.finished, [])
  | o :: rest =>
    let direction := look_direction reverse cursor o.loc
    match to_track_quat direction (trackAxes axis).1 (trackAxes axis).2 with
    | Except.error _ => (ExecStatus.cancelled, o :: rest)
    | Except.ok r =>
      let res := lookAt_go reverse axis cursor rest
      (res.1, ⟨o.loc, r⟩ :: res.2)

/-- `LookAtCursorOperator.execute` (source lines 206–230): runs the loop over
the selected objects.  The operator never assigns the cursor location, so the
cursor is returned unchanged alongside the status and the updated objects. -/
def LookAtCursorOperator_execute (reverse : Bool) (axis : Axis3)
    (cursor : Vec3) (objs : List SceneObj) :
    ExecStatus × Vec3 × List SceneObj :=
  let res := lookAt_go reverse axis cursor objs
  (res.1, cursor, res.2)

/-- The update applied to one object on the successful path of the loop:
rotation replaced by the tracked rotation for its direction. -/
def lookAt_apply (reverse : Bool) (axis : Axis3) (cursor : Vec3)
    (o : SceneObj) : SceneObj :=
  ⟨o.loc, Rot.tracked (look_direction reverse cursor o.loc)
    (trackAxes axis).1 (trackAxes axis).2⟩

/-- Object type, as far as `poll` distinguishes it. -/
inductive BType where
  | mesh : BType
  | armature : BType
deriving DecidableEq

/-- Object interaction mode, as far as `poll` distinguishes it. -/
inductive BMode where
  | objectM : BMode
  | editM : BMode
  | poseM : BMode
deriving DecidableEq

/-- The active object of the context: its type and mode. -/
structure BObj where
  ty : BType
  mode : BMode
deriving DecidableEq

/-- The slice of `bpy.context` that `MoveToCircumcenterOperator.poll` reads:
the active object (or `None`) and the selected-entity counts of each
selection context. -/
structure BContext where
  object : Option BObj
  selectedVerts : ℕ
  selectedObjects : ℕ
  selectedPoseBones : ℕ
  selectedBones : ℕ
deriving DecidableEq

/-- The checks of `poll` after the edit-mode block (source lines 106–122):
object mode, armature pose mode, armature edit mode, otherwise `False`. -/
def poll_rest (ctx : BContext) (obj : BObj) : Except String Bool :=
  if obj.mode = BMode.objectM ∧
      (ctx.selectedObjects = 4 ∨ ctx.selectedObjects = 3) then
    Except.ok true
  else if obj.ty = BType.armature ∧ obj.mode = BMode.poseM ∧
      (ctx.selectedPoseBones = 4 ∨ ctx.selectedPoseBones = 3) then
    Except.ok true
  else if obj.ty = BType.armature ∧ obj.mode = BMode.editM ∧
      (ctx.selectedBones = 4 ∨ ctx.selectedBones = 3) then
    Except.ok true
  else
    Except.ok false

/-- `MoveToCircumcenterOperator.poll` (source lines 90–122).

Line 96 guards only on `obj.mode == 'EDIT'` — not on the object type — and
then calls `bmesh.from_edit_mesh(obj.data)` (line 98), which raises
`TypeError` when the data is not a `Mesh`.  So for an armature in edit mode
`poll` raises instead of reaching the armature-edit check of lines 117–120
(compare `execute` line 131, which does guard with
`obj.type == 'MESH' and obj.mode == 'EDIT'`). -/
def MoveToCircumcenterOperator_poll (ctx : BContext) : Except String Bool :=
  match ctx.object with
  | none => Except.ok false
  | some obj =>
    if obj.mode = BMode.editM then
      if obj.ty = BType.mesh then
        if ctx.selectedVerts = 4 ∨ ctx.selectedVerts = 3 then Except.ok true
        else poll_rest ctx obj
      else Except.error "TypeError"
    else poll_rest ctx obj

/-- The weight sum equals `-2` times the squared norm of the edge cross
product, so it vanishes exactly on collinear triples. -/
lemma s3_eq_neg_two_cross (p1 p2 p3 : Vec3) :
    s3 p1 p2 p3 =
      -2 * (Vec3.cross (p2 - p1) (p3 - p1)).length_squared := by
  simp only [s3, u3, v3, w3, Vec3.length_squared, Vec3.dot, Vec3.cross,
    Vec3.sub_x, Vec3.sub_y, Vec3.sub_z]
  ring

/-- Non-collinear triples have nonzero weight sum. -/
lemma s3_ne_zero_of_not_collinear (p1 p2 p3 : Vec3)
    (h : ¬ collinear3 p1 p2 p3) : s3 p1 p2 p3 ≠ 0 := by
  rw [s3_eq_neg_two_cross]
  intro hc
  apply h
  unfold collinear3
  rw [← Vec3.length_squared_eq_zero_iff]
  have : (Vec3.cross (p2 - p1) (p3 - p1)).length_squared =
      -2 * (Vec3.cross (p2 - p1) (p3 - p1)).length_squared / (-2) := by ring
  rw [this, hc]
  norm_num

/-- Perpendicular-bisector characterisation of equidistance: `c` is
equidistant from `p` and `q` iff `2 c·(q-p) = |q|² - |p|²`. -/
lemma dist2_eq_of_dot (c p q : Vec3)
    (h : 2 * (c.dot (q - p)) = q.length_squared - p.length_squared) :
    dist2 c p = dist2 c q := by
  simp only [dist2, Vec3.length_squared, Vec3.dot, Vec3.sub_x, Vec3.sub_y,
    Vec3.sub_z] at h ⊢
  linear_combination h

/-- The unnormalised barycentric combination satisfies the bisector equation
of `p1, p2` scaled by the weight sum (a polynomial identity). -/
lemma N3_dot_12 (p1 p2 p3 : Vec3) :
    2 * ((N3 p1 p2 p3).dot (p2 - p1)) =
      s3 p1 p2 p3 * (p2.length_squared - p1.length_squared) := by
  simp only [N3, s3, u3, v3, w3, Vec3.length_squared, Vec3.dot,
    Vec3.add_x, Vec3.add_y, Vec3.add_z, Vec3.smul_x, Vec3.smul_y, Vec3.smul_z,
    Vec3.sub_x, Vec3.sub_y, Vec3.sub_z]
  ring

/-- The analogous bisector identity for `p2, p3`. -/
lemma N3_dot_23 (p1 p2 p3 : Vec3) :
    2 * ((N3 p1 p2 p3).dot (p3 - p2)) =
      s3 p1 p2 p3 * (p3.length_squared - p2.length_squared) := by
  simp only [N3, s3, u3, v3, w3, Vec3.length_squared, Vec3.dot,
    Vec3.add_x, Vec3.add_y, Vec3.add_z, Vec3.smul_x, Vec3.smul_y, Vec3.smul_z,
    Vec3.sub_x, Vec3.sub_y, Vec3.sub_z]
  ring

/-- The barycentric point is equidistant from the first two input points
whenever the weight sum is nonzero. -/
lemma center3_dist_12 (p1 p2 p3 : Vec3) (h : s3 p1 p2 p3 ≠ 0) :
    dist2 (center3 p1 p2 p3) p1 = dist2 (center3 p1 p2 p3) p2 := by
  apply dist2_eq_of_dot
  have hk := N3_dot_12 p1 p2 p3
  simp only [center3, Vec3.dot, Vec3.divq_x, Vec3.divq_y, Vec3.divq_z,
    Vec3.sub_x, Vec3.sub_y, Vec3.sub_z] at hk ⊢
  field_simp
  linear_combination hk

/-- The barycentric point is equidistant from the last two input points
whenever the weight sum is nonzero. -/
lemma center3_dist_23 (p1 p2 p3 : Vec3) (h : s3 p1 p2 p3 ≠ 0) :
    dist2 (center3 p1 p2 p3) p2 = dist2 (center3 p1 p2 p3) p3 := by
  apply dist2_eq_of_dot
  have hk := N3_dot_23 p1 p2 p3
  simp only [center3, Vec3.dot, Vec3.divq_x, Vec3.divq_y, Vec3.divq_z,
    Vec3.sub_x, Vec3.sub_y, Vec3.sub_z] at hk ⊢
  field_simp
  linear_combination hk

/-- Cramer's rule solves the system: with nonzero determinant, the solution
satisfies each row equation (cofactor-expansion identities). -/
lemma cramer3_solves (r1 r2 r3 : Vec3) (b1 b2 b3 : ℚ)
    (hd : det3 r1 r2 r3 ≠ 0) :
    r1.dot (cramer3 r1 r2 r3 b1 b2 b3) = b1 ∧
    r2.dot (cramer3 r1 r2 r3 b1 b2 b3) = b2 ∧
    r3.dot (cramer3 r1 r2 r3 b1 b2 b3) = b3 := by
  simp only [cramer3, Vec3.dot, det3] at hd ⊢
  refine ⟨?_, ?_, ?_⟩ <;> field_simp <;> ring

/-- The determinant of the system matrix of `calculate_circumcenter_4d` is
`8` times the edge-vector determinant that defines coplanarity. -/
lemma det_mrow_eq (A B C D : Vec3) :
    det3 (mrow A B) (mrow B C) (mrow C D) =
      8 * det3 (B - A) (C - A) (D - A) := by
  simp only [det3, mrow, Vec3.sub_x, Vec3.sub_y, Vec3.sub_z]
  ring

/-- A row equation of the 4-point system is the perpendicular-bisector
equation of the corresponding point pair. -/
lemma mrow_dot_eq (P Q x : Vec3) (h : (mrow P Q).dot x = rhsEntry P Q) :
    2 * (x.dot (Q - P)) = Q.length_squared - P.length_squared := by
  simp only [mrow, rhsEntry, Vec3.dot, Vec3.length_squared, Vec3.sub_x,
    Vec3.sub_y, Vec3.sub_z] at h ⊢
  linear_combination h

/-- On a non-coplanar quadruple, `calculate_circumcenter_4d` returns the
Cramer solution. -/
lemma calc4d_eq_some (A B C D : Vec3) (h : ¬ coplanar4 A B C D) :
    calculate_circumcenter_4d A B C D =
      some (cramer3 (mrow A B) (mrow B C) (mrow C D)
        (rhsEntry A B) (rhsEntry B C) (rhsEntry C D)) := by
  have hd : det3 (mrow A B) (mrow B C) (mrow C D) ≠ 0 := by
    rw [det_mrow_eq]
    intro hc
    apply h
    unfold coplanar4
    have h8 : (8 : ℚ) ≠ 0 := by norm_num
    exact (mul_eq_zero.mp hc).resolve_left h8
  simp [calculate_circumcenter_4d, hd]

/-- On a coplanar quadruple the system matrix is singular and
`calculate_circumcenter_4d` returns `None`. -/
lemma calc4d_eq_none (A B C D : Vec3) (h : coplanar4 A B C D) :
    calculate_circumcenter_4d A B C D = none := by
  have hd : det3 (mrow A B) (mrow B C) (mrow C D) = 0 := by
    rw [det_mrow_eq]
    unfold coplanar4 at h
    rw [h]
    ring
  simp [calculate_circumcenter_4d, hd]

/-- The weight sum is invariant under swapping the first two points. -/
lemma s3_swap12 (p1 p2 p3 : Vec3) : s3 p2 p1 p3 = s3 p1 p2 p3 := by
  simp only [s3, u3, v3, w3, Vec3.length_squared, Vec3.dot,
    Vec3.sub_x, Vec3.sub_y, Vec3.sub_z]
  ring

/-- The weight sum is invariant under cyclic rotation of the points. -/
lemma s3_cycle (p1 p2 p3 : Vec3) : s3 p2 p3 p1 = s3 p1 p2 p3 := by
  simp only [s3, u3, v3, w3, Vec3.length_squared, Vec3.dot,
    Vec3.sub_x, Vec3.sub_y, Vec3.sub_z]
  ring

/-- The unnormalised combination is invariant under swapping the first two
points (the weights swap with their points). -/
lemma N3_swap12 (p1 p2 p3 : Vec3) : N3 p2 p1 p3 = N3 p1 p2 p3 := by
  ext <;>
    simp only [N3, u3, v3, w3, Vec3.length_squared, Vec3.dot,
      Vec3.add_x, Vec3.add_y, Vec3.add_z, Vec3.smul_x, Vec3.smul_y,
      Vec3.smul_z, Vec3.sub_x, Vec3.sub_y, Vec3.sub_z] <;>
    ring

/-- The unnormalised combination is invariant under cyclic rotation. -/
lemma N3_cycle (p1 p2 p3 : Vec3) : N3 p2 p3 p1 = N3 p1 p2 p3 := by
  ext <;>
    simp only [N3, u3, v3, w3, Vec3.length_squared, Vec3.dot,
      Vec3.add_x, Vec3.add_y, Vec3.add_z, Vec3.smul_x, Vec3.smul_y,
      Vec3.smul_z, Vec3.sub_x, Vec3.sub_y, Vec3.sub_z] <;>
    ring

/-- `calculate_circumcenter_3d` is invariant under swapping its first two
arguments. -/
lemma calc3d_swap12 (p1 p2 p3 : Vec3) :
    calculate_circumcenter_3d p2 p1 p3 = calculate_circumcenter_3d p1 p2 p3 := by
  rw [calc3d_shape, calc3d_shape]
  unfold center3
  rw [s3_swap12, N3_swap12]

/-- `calculate_circumcenter_3d` is invariant under cyclic rotation of its
arguments. -/
lemma calc3d_cycle (p1 p2 p3 : Vec3) :
    calculate_circumcenter_3d p2 p3 p1 = calculate_circumcenter_3d p1 p2 p3 := by
  rw [calc3d_shape, calc3d_shape]
  unfold center3
  rw [s3_cycle, N3_cycle]

/-- The loop direction is zero exactly when the object sits at the cursor,
for either value of `reverse`. -/
lemma look_direction_eq_zero_iff (reverse : Bool) (cursor loc : Vec3) :
    look_direction reverse cursor loc = Vec3.zero ↔ loc = cursor := by
  cases reverse
  · simp only [look_direction, Bool.false_eq_true, if_false]
    rw [Vec3.sub_eq_zero_iff]
    exact ⟨fun h => h.symm, fun h => h.symm⟩
  · simp only [look_direction, if_true]
    rw [Vec3.sub_eq_zero_iff]

/-- The orient loop finishes iff no selected object sits at the cursor. -/
lemma lookAt_go_finished_iff (reverse : Bool) (axis : Axis3) (cursor : Vec3)
    (objs : List SceneObj) :
    (lookAt_go reverse axis cursor objs).1 = ExecStatus.finished ↔
      ∀ o ∈ objs, o.loc ≠ cursor := by
  induction objs with
  | nil => simp [lookAt_go]
  | cons o rest ih =>
    by_cases hz : look_direction reverse cursor o.loc = Vec3.zero
    · have hloc : o.loc = cursor := (look_direction_eq_zero_iff _ _ _).mp hz
      simp only [lookAt_go, to_track_quat, hz, if_pos]
      constructor
      · intro h
        exact absurd h (by simp)
      · intro h
        exact absurd hloc (h o (List.mem_cons_self o rest))
    · have hloc : o.loc ≠ cursor :=
        fun h => hz ((look_direction_eq_zero_iff _ _ _).mpr h)
      simp only [lookAt_go, to_track_quat, hz, if_neg, List.mem_cons]
      rw [show (∀ o' , o' = o ∨ o' ∈ rest → o'.loc ≠ cursor) ↔
          (∀ o' ∈ rest, o'.loc ≠ cursor) from ?_]
      · exact ih
      · constructor
        · intro h o' ho'
          exact h o' (Or.inr ho')
        · intro h o' ho'
          rcases ho' with h1 | h2
          · subst h1
            exact hloc
          · exact h o' h2

/-- The orient loop is cancelled iff some selected object sits at the
cursor. -/
lemma lookAt_go_cancelled_iff (reverse : Bool) (axis : Axis3) (cursor : Vec3)
    (objs : List SceneObj) :
    (lookAt_go reverse axis cursor objs).1 = ExecStatus.cancelled ↔
      ∃ o ∈ objs, o.loc = cursor := by
  induction objs with
  | nil => simp [lookAt_go]
  | cons o rest ih =>
    by_cases hz : look_direction reverse cursor o.loc = Vec3.zero
    · have hloc : o.loc = cursor := (look_direction_eq_zero_iff _ _ _).mp hz
      have hstep : (lookAt_go reverse axis cursor (o :: rest)).1 =
          ExecStatus.cancelled := by
        simp [lookAt_go, to_track_quat, hz]
      rw [hstep]
      exact iff_of_true rfl ⟨o, List.mem_cons_self o rest, hloc⟩
    · have hloc : o.loc ≠ cursor :=
        fun h => hz ((look_direction_eq_zero_iff _ _ _).mpr h)
      have hstep : (lookAt_go reverse axis cursor (o :: rest)).1 =
          (lookAt_go reverse axis cursor rest).1 := by
        simp [lookAt_go, to_track_quat, hz]
      rw [hstep, ih]
      constructor
      · intro ⟨o', ho', hl⟩
        exact ⟨o', List.mem_cons_of_mem o ho', hl⟩
      · intro ⟨o', ho', hl⟩
        rcases List.mem_cons.mp ho' with h1 | h2
        · subst h1
          exact absurd hl hloc
        · exact ⟨o', h2, hl⟩

/-- When the orient loop is cancelled, the object list splits as: a prefix of
objects not at the cursor, whose rotations have been overwritten, followed by
the first object at the cursor and the remaining objects, all untouched. -/
lemma lookAt_go_cancelled_decomp (reverse : Bool) (axis : Axis3)
    (cursor : Vec3) (objs : List SceneObj)
    (h : (lookAt_go reverse axis cursor objs).1 = ExecStatus.cancelled) :
    ∃ pre o post, objs = pre ++ o :: post ∧ o.loc = cursor ∧
      (∀ o' ∈ pre, o'.loc ≠ cursor) ∧
      (lookAt_go reverse axis cursor objs).2 =
        pre.map (lookAt_apply reverse axis cursor) ++ o :: post := by
  induction objs with
  | nil => simp [lookAt_go] at h
  | cons o rest ih =>
    by_cases hz : look_direction reverse cursor o.loc = Vec3.zero
    · have hloc : o.loc = cursor := (look_direction_eq_zero_iff _ _ _).mp hz
      refine ⟨[], o, rest, by simp, hloc, by simp, ?_⟩
      simp [lookAt_go, to_track_quat, hz]
    · have hloc : o.loc ≠ cursor :=
        fun hc => hz ((look_direction_eq_zero_iff _ _ _).mpr hc)
      have hstep : (lookAt_go reverse axis cursor (o :: rest)).1 =
          (lookAt_go reverse axis cursor rest).1 := by
        simp [lookAt_go, to_track_quat, hz]
      rw [hstep] at h
      obtain ⟨pre, o', post, heq, hl, hpre, hres⟩ := ih h
      refine ⟨o :: pre, o', post, by simp [heq], hl, ?_, ?_⟩
      · intro o'' ho''
        rcases List.mem_cons.mp ho'' with h1 | h2
        · subst h1
          exact hloc
        · exact hpre o'' h2
      · simp only [lookAt_go, to_track_quat, hz, if_neg, List.map_cons,
          List.cons_append]
        rw [hres]
        rfl

/-- The 3-point circumcenter `execute` either finishes or propagates the
`NameError` of the collinear branch; it never returns `CANCELLED`. -/
lemma mtc3_no_cancel (p0 p1 p2 cursor : Vec3) :
    (mtc_execute3 p0 p1 p2 cursor).status = ExecStatus.finished ∨
    (mtc_execute3 p0 p1 p2 cursor).status = ExecStatus.exn "NameError" := by
  by_cases h : s3 p0 p1 p2 = 0 <;>
    simp [mtc_execute3, calc3d_shape, h]

/-- The 4-point circumcenter `execute` either finishes or propagates the
`NameError` of the collinear fallback; it never returns `CANCELLED`. -/
lemma mtc4_no_cancel (p0 p1 p2 p3 cursor : Vec3) :
    (mtc_execute4 p0 p1 p2 p3 cursor).status = ExecStatus.finished ∨
    (mtc_execute4 p0 p1 p2 p3 cursor).status = ExecStatus.exn "NameError" := by
  by_cases hd : det3 (mrow p0 p1) (mrow p1 p2) (mrow p2 p3) = 0
  · by_cases h : s3 p0 p1 p2 = 0 <;>
      simp [mtc_execute4, calculate_circumcenter_4d, hd, calc3d_shape, h]
  · simp [mtc_execute4, calculate_circumcenter_4d, hd]

/-- The system determinant is nonzero on non-coplanar quadruples. -/
lemma det_ne_zero_of_not_coplanar (A B C D : Vec3) (h : ¬ coplanar4 A B C D) :
    det3 (mrow A B) (mrow B C) (mrow C D) ≠ 0 := by
  rw [det_mrow_eq]
  intro hc
  apply h
  unfold coplanar4
  have h8 : (8 : ℚ) ≠ 0 := by norm_num
  exact (mul_eq_zero.mp hc).resolve_left h8

/-- C1: for every non-collinear triple, `calculate_circumcenter_3d` returns a
defined point equal to the barycentric combination
`(u*p1 + v*p2 + w*p3)/(u+v+w)` with the claim's weights `u3, v3, w3`, and
that point is equidistant (in squared distance, hence in distance) from all
three input points. -/
theorem circumcenter3d_nonCollinear_defined_equidistant :
    ∀ p1 p2 p3 : Vec3, ¬ collinear3 p1 p2 p3 →
      calculate_circumcenter_3d p1 p2 p3 =
        PyResult.ok (some (center3 p1 p2 p3)) ∧
      dist2 (center3 p1 p2 p3) p1 = dist2 (center3 p1 p2 p3) p2 ∧
      dist2 (center3 p1 p2 p3) p2 = dist2 (center3 p1 p2 p3) p3 := by
  intro p1 p2 p3 h
  have hs := s3_ne_zero_of_not_collinear p1 p2 p3 h
  refine ⟨?_, center3_dist_12 _ _ _ hs, center3_dist_23 _ _ _ hs⟩
  rw [calc3d_shape]
  simp [hs]

/-- Witness for C1 at the spec's planar example
`p1=(0,0,0), p2=(2,0,0), p3=(0,2,0)`. -/
theorem circumcenter3d_nonCollinear_defined_equidistant_witness :
    ¬ collinear3 ⟨0, 0, 0⟩ ⟨2, 0, 0⟩ ⟨0, 2, 0⟩ ∧
      (calculate_circumcenter_3d ⟨0, 0, 0⟩ ⟨2, 0, 0⟩ ⟨0, 2, 0⟩ =
        PyResult.ok (some (center3 ⟨0, 0, 0⟩ ⟨2, 0, 0⟩ ⟨0, 2, 0⟩)) ∧
      dist2 (center3 ⟨0, 0, 0⟩ ⟨2, 0, 0⟩ ⟨0, 2, 0⟩) ⟨0, 0, 0⟩ =
        dist2 (center3 ⟨0, 0, 0⟩ ⟨2, 0, 0⟩ ⟨0, 2, 0⟩) ⟨2, 0, 0⟩ ∧
      dist2 (center3 ⟨0, 0, 0⟩ ⟨2, 0, 0⟩ ⟨0, 2, 0⟩) ⟨2, 0, 0⟩ =
        dist2 (center3 ⟨0, 0, 0⟩ ⟨2, 0, 0⟩ ⟨0, 2, 0⟩) ⟨0, 2, 0⟩) :=
  ⟨by norm_num [collinear3, Vec3.cross, Vec3.zero, Vec3.ext_iff,
      Vec3.sub_x, Vec3.sub_y, Vec3.sub_z],
    circumcenter3d_nonCollinear_defined_equidistant ⟨0, 0, 0⟩ ⟨2, 0, 0⟩
      ⟨0, 2, 0⟩ (by norm_num [collinear3, Vec3.cross, Vec3.zero, Vec3.ext_iff,
        Vec3.sub_x, Vec3.sub_y, Vec3.sub_z])⟩

/-- C2: for every non-coplanar quadruple, `calculate_circumcenter_4d` returns
a defined point equidistant (in squared distance) from all four inputs; and on
the spec's example `A=(0,0,0), B=(2,0,0), C=(0,2,0), D=(0,0,2)` it returns
`(1,1,1)`. -/
theorem circumcenter4d_nonCoplanar_defined_equidistant :
    (∀ A B C D : Vec3, ¬ coplanar4 A B C D →
      ∃ x, calculate_circumcenter_4d A B C D = some x ∧
        dist2 x A = dist2 x B ∧ dist2 x B = dist2 x C ∧
        dist2 x C = dist2 x D) ∧
    calculate_circumcenter_4d ⟨0, 0, 0⟩ ⟨2, 0, 0⟩ ⟨0, 2, 0⟩ ⟨0, 0, 2⟩ =
      some ⟨1, 1, 1⟩ := by
  constructor
  · intro A B C D h
    have hd := det_ne_zero_of_not_coplanar A B C D h
    obtain ⟨h1, h2, h3⟩ := cramer3_solves (mrow A B) (mrow B C) (mrow C D)
      (rhsEntry A B) (rhsEntry B C) (rhsEntry C D) hd
    refine ⟨_, calc4d_eq_some A B C D h, ?_, ?_, ?_⟩
    · exact dist2_eq_of_dot _ _ _ (mrow_dot_eq _ _ _ h1)
    · exact dist2_eq_of_dot _ _ _ (mrow_dot_eq _ _ _ h2)
    · exact dist2_eq_of_dot _ _ _ (mrow_dot_eq _ _ _ h3)
  · norm_num [calculate_circumcenter_4d, mrow, rhsEntry, det3, cramer3,
      Vec3.ext_iff]

/-- Witness for C2 at the spec's spherical example. -/
theorem circumcenter4d_nonCoplanar_defined_equidistant_witness :
    ¬ coplanar4 ⟨0, 0, 0⟩ ⟨2, 0, 0⟩ ⟨0, 2, 0⟩ ⟨0, 0, 2⟩ ∧
      ∃ x, calculate_circumcenter_4d ⟨0, 0, 0⟩ ⟨2, 0, 0⟩ ⟨0, 2, 0⟩
          ⟨0, 0, 2⟩ = some x ∧
        dist2 x ⟨0, 0, 0⟩ = dist2 x ⟨2, 0, 0⟩ ∧
        dist2 x ⟨2, 0, 0⟩ = dist2 x ⟨0, 2, 0⟩ ∧
        dist2 x ⟨0, 2, 0⟩ = dist2 x ⟨0, 0, 2⟩ :=
  ⟨by norm_num [coplanar4, det3, Vec3.sub_x, Vec3.sub_y, Vec3.sub_z],
    circumcenter4d_nonCoplanar_defined_equidistant.1 ⟨0, 0, 0⟩ ⟨2, 0, 0⟩
      ⟨0, 2, 0⟩ ⟨0, 0, 2⟩
      (by norm_num [coplanar4, det3, Vec3.sub_x, Vec3.sub_y, Vec3.sub_z])⟩

/-- C3: at the exactly collinear triple `(0,0,0), (1,0,0), (2,0,0)` the
weight sum vanishes, and `calculate_circumcenter_3d` raises `NameError`
(line 34 calls the undefined global `report`) instead of returning the
arithmetic mean `(1,0,0)` with a warning. -/
theorem circumcenter3d_collinear_raises :
    calculate_circumcenter_3d ⟨0, 0, 0⟩ ⟨1, 0, 0⟩ ⟨2, 0, 0⟩ =
      PyResult.exn "NameError" := by
  rw [calc3d_shape]
  norm_num [s3, u3, v3, w3, Vec3.length_squared, Vec3.dot,
    Vec3.sub_x, Vec3.sub_y, Vec3.sub_z]

/-- C4: `calculate_circumcenter_3d` is not exception-free: at the collinear
triple `(0,0,0), (1,1,1), (2,2,2)` it raises `NameError` to its caller
rather than yielding a defined point or `None`. -/
theorem circumcenter3d_not_total :
    calculate_circumcenter_3d ⟨0, 0, 0⟩ ⟨1, 1, 1⟩ ⟨2, 2, 2⟩ =
      PyResult.exn "NameError" := by
  rw [calc3d_shape]
  norm_num [s3, u3, v3, w3, Vec3.length_squared, Vec3.dot,
    Vec3.sub_x, Vec3.sub_y, Vec3.sub_z]

/-- C5: for coplanar quadruples `calculate_circumcenter_4d` returns `None`,
and when the first three points are not collinear the `execute` fallback
finishes with the 3-point circumcenter and surfaces the coplanarity warning
— but when the first three points are collinear (third conjunct, at
`A=(0,0,0), B=(1,0,0), C=(2,0,0), D=(0,1,0)`), the fallback raises
`NameError` to the host with no warning instead of completing as the claim
describes. -/
theorem mtc4_coplanar_fallback :
    (∀ A B C D : Vec3, coplanar4 A B C D →
      calculate_circumcenter_4d A B C D = none) ∧
    (∀ A B C D cursor : Vec3, coplanar4 A B C D → ¬ collinear3 A B C →
      mtc_execute4 A B C D cursor =
        ⟨ExecStatus.finished, center3 A B C, true⟩) ∧
    mtc_execute4 ⟨0, 0, 0⟩ ⟨1, 0, 0⟩ ⟨2, 0, 0⟩ ⟨0, 1, 0⟩ ⟨5, 5, 5⟩ =
      ⟨ExecStatus.exn "NameError", ⟨5, 5, 5⟩, false⟩ := by
  refine ⟨calc4d_eq_none, ?_, ?_⟩
  · intro A B C D cursor h4 h3
    have hs := s3_ne_zero_of_not_collinear A B C h3
    simp [mtc_execute4, calc4d_eq_none A B C D h4, calc3d_shape, hs]
  · have h4 : calculate_circumcenter_4d ⟨0, 0, 0⟩ ⟨1, 0, 0⟩ ⟨2, 0, 0⟩
        ⟨0, 1, 0⟩ = none := by
      apply calc4d_eq_none
      norm_num [coplanar4, det3, Vec3.sub_x, Vec3.sub_y, Vec3.sub_z]
    have h3 : calculate_circumcenter_3d ⟨0, 0, 0⟩ ⟨1, 0, 0⟩ ⟨2, 0, 0⟩ =
        PyResult.exn "NameError" := by
      rw [calc3d_shape]
      norm_num [s3, u3, v3, w3, Vec3.length_squared, Vec3.dot,
        Vec3.sub_x, Vec3.sub_y, Vec3.sub_z]
    simp [mtc_execute4, h4, h3]

/-- Witness for C5 at a coplanar quadruple whose first three points are not
collinear: the fallback path completes with the planar circumcenter and the
warning. -/
theorem mtc4_coplanar_fallback_witness :
    coplanar4 ⟨0, 0, 0⟩ ⟨2, 0, 0⟩ ⟨0, 2, 0⟩ ⟨2, 2, 0⟩ ∧
    ¬ collinear3 ⟨0, 0, 0⟩ ⟨2, 0, 0⟩ ⟨0, 2, 0⟩ ∧
    calculate_circumcenter_4d ⟨0, 0, 0⟩ ⟨2, 0, 0⟩ ⟨0, 2, 0⟩ ⟨2, 2, 0⟩ =
      none ∧
    mtc_execute4 ⟨0, 0, 0⟩ ⟨2, 0, 0⟩ ⟨0, 2, 0⟩ ⟨2, 2, 0⟩ ⟨9, 9, 9⟩ =
      ⟨ExecStatus.finished, center3 ⟨0, 0, 0⟩ ⟨2, 0, 0⟩ ⟨0, 2, 0⟩, true⟩ := by
  have hcop : coplanar4 ⟨0, 0, 0⟩ ⟨2, 0, 0⟩ ⟨0, 2, 0⟩ ⟨2, 2, 0⟩ := by
    norm_num [coplanar4, det3, Vec3.sub_x, Vec3.sub_y, Vec3.sub_z]
  have hncol : ¬ collinear3 ⟨0, 0, 0⟩ ⟨2, 0, 0⟩ ⟨0, 2, 0⟩ := by
    norm_num [collinear3, Vec3.cross, Vec3.zero, Vec3.ext_iff,
      Vec3.sub_x, Vec3.sub_y, Vec3.sub_z]
  exact ⟨hcop, hncol, mtc4_coplanar_fallback.1 _ _ _ _ hcop,
    mtc4_coplanar_fallback.2.1 _ _ _ _ _ hcop hncol⟩

/-- C6 counterexample: with the cursor at the origin and three selected
objects at `(1,0,0)`, `(0,0,0)`, `(2,0,0)`, the zero-direction second object
makes the loop `return {'CANCELLED'}` for the whole batch: the first object
has been rotated, but the operation does not report `FINISHED` and the third
object never receives a rotation — it is not "skipped". -/
theorem lookAt_zero_direction_aborts :
    lookAt_go false Axis3.Z ⟨0, 0, 0⟩
      [⟨⟨1, 0, 0⟩, Rot.original 0⟩, ⟨⟨0, 0, 0⟩, Rot.original 1⟩,
       ⟨⟨2, 0, 0⟩, Rot.original 2⟩] =
      (ExecStatus.cancelled,
        [⟨⟨1, 0, 0⟩, Rot.tracked ⟨-1, 0, 0⟩ Axis3.Z Axis3.Y⟩,
         ⟨⟨0, 0, 0⟩, Rot.original 1⟩, ⟨⟨2, 0, 0⟩, Rot.original 2⟩]) := by
  norm_num [lookAt_go, to_track_quat, look_direction, trackAxes, Vec3.zero,
    Vec3.ext_iff, Vec3.sub_x, Vec3.sub_y, Vec3.sub_z]

/-- C6 (amended): a zero-direction object does not get skipped — the
operation reports `FINISHED` exactly when *no* selected object coincides with
the cursor, and returns `CANCELLED` (aborting the batch) exactly when some
selected object coincides with it. -/
theorem lookAt_finished_iff_none_at_cursor :
    ∀ (reverse : Bool) (axis : Axis3) (cursor : Vec3) (objs : List SceneObj),
      ((LookAtCursorOperator_execute reverse axis cursor objs).1 =
          ExecStatus.finished ↔ ∀ o ∈ objs, o.loc ≠ cursor) ∧
      ((LookAtCursorOperator_execute reverse axis cursor objs).1 =
          ExecStatus.cancelled ↔ ∃ o ∈ objs, o.loc = cursor) :=
  fun reverse axis cursor objs =>
    ⟨lookAt_go_finished_iff reverse axis cursor objs,
     lookAt_go_cancelled_iff reverse axis cursor objs⟩

/-- C7 counterexample: an invocation of the orient operator that returns
`CANCELLED` (second object at the cursor) has already overwritten the first
object's rotation — the scene is *not* left untouched. -/
theorem lookAt_cancelled_after_mutation :
    LookAtCursorOperator_execute false Axis3.Z ⟨0, 0, 0⟩
      [⟨⟨1, 0, 0⟩, Rot.original 0⟩, ⟨⟨0, 0, 0⟩, Rot.original 1⟩] =
      (ExecStatus.cancelled, ⟨0, 0, 0⟩,
        [⟨⟨1, 0, 0⟩, Rot.tracked ⟨-1, 0, 0⟩ Axis3.Z Axis3.Y⟩,
         ⟨⟨0, 0, 0⟩, Rot.original 1⟩]) := by
  norm_num [LookAtCursorOperator_execute, lookAt_go, to_track_quat,
    look_direction, trackAxes, Vec3.zero, Vec3.ext_iff,
    Vec3.sub_x, Vec3.sub_y, Vec3.sub_z]

/-- C7 (amended): in exact arithmetic the circumcenter operation never
returns `CANCELLED` (it finishes or propagates the collinear-branch
`NameError`); the orient operation never writes the cursor; and when the
orient operation returns `CANCELLED`, the first object at the cursor and all
objects after it keep their original rotations, while the objects before it
have already been rotated. -/
theorem cancelled_leaves_cursor_and_suffix :
    (∀ p0 p1 p2 cursor : Vec3,
      (mtc_execute3 p0 p1 p2 cursor).status = ExecStatus.finished ∨
      (mtc_execute3 p0 p1 p2 cursor).status = ExecStatus.exn "NameError") ∧
    (∀ p0 p1 p2 p3 cursor : Vec3,
      (mtc_execute4 p0 p1 p2 p3 cursor).status = ExecStatus.finished ∨
      (mtc_execute4 p0 p1 p2 p3 cursor).status = ExecStatus.exn "NameError") ∧
    (∀ (reverse : Bool) (axis : Axis3) (cursor : Vec3)
        (objs : List SceneObj),
      (LookAtCursorOperator_execute reverse axis cursor objs).2.1 = cursor) ∧
    (∀ (reverse : Bool) (axis : Axis3) (cursor : Vec3)
        (objs : List SceneObj),
      (lookAt_go reverse axis cursor objs).1 = ExecStatus.cancelled →
        ∃ pre o post, objs = pre ++ o :: post ∧ o.loc = cursor ∧
          (∀ o' ∈ pre, o'.loc ≠ cursor) ∧
          (lookAt_go reverse axis cursor objs).2 =
            pre.map (lookAt_apply reverse axis cursor) ++ o :: post) :=
  ⟨mtc3_no_cancel, mtc4_no_cancel, fun _ _ _ _ => rfl,
    lookAt_go_cancelled_decomp⟩

/-- Witness for C7 (amended) on a single object sitting at the cursor. -/
theorem cancelled_leaves_cursor_and_suffix_witness :
    (lookAt_go false Axis3.Z ⟨0, 0, 0⟩ [⟨⟨0, 0, 0⟩, Rot.original 0⟩]).1 =
      ExecStatus.cancelled ∧
    ∃ pre o post,
      ([⟨⟨0, 0, 0⟩, Rot.original 0⟩] : List SceneObj) = pre ++ o :: post ∧
      o.loc = ⟨0, 0, 0⟩ ∧ (∀ o' ∈ pre, o'.loc ≠ ⟨0, 0, 0⟩) ∧
      (lookAt_go false Axis3.Z ⟨0, 0, 0⟩
        [⟨⟨0, 0, 0⟩, Rot.original 0⟩]).2 =
        pre.map (lookAt_apply false Axis3.Z ⟨0, 0, 0⟩) ++ o :: post := by
  have hc : (lookAt_go false Axis3.Z ⟨0, 0, 0⟩
      [⟨⟨0, 0, 0⟩, Rot.original 0⟩]).1 = ExecStatus.cancelled := by
    norm_num [lookAt_go, to_track_quat, look_direction, trackAxes, Vec3.zero,
      Vec3.ext_iff, Vec3.sub_x, Vec3.sub_y, Vec3.sub_z]
  exact ⟨hc,
    cancelled_leaves_cursor_and_suffix.2.2.2 false Axis3.Z ⟨0, 0, 0⟩ _ hc⟩

/-- C8: in object mode, mesh edit mode and armature pose mode, `poll`
returns `True` exactly when the relevant selected-entity count is 4 or 3 —
but for an armature in edit mode it raises `TypeError` out of
`bmesh.from_edit_mesh` (line 96 checks only the mode, not the object type)
instead of consulting `selected_bones` as lines 117–120 intend. -/
theorem poll_entity_counts :
    (∀ (ty : BType) (nv no np nb : ℕ),
      MoveToCircumcenterOperator_poll
        ⟨some ⟨ty, BMode.objectM⟩, nv, no, np, nb⟩ =
          Except.ok (decide (no = 4 ∨ no = 3))) ∧
    (∀ nv no np nb : ℕ,
      MoveToCircumcenterOperator_poll
        ⟨some ⟨BType.mesh, BMode.editM⟩, nv, no, np, nb⟩ =
          Except.ok (decide (nv = 4 ∨ nv = 3))) ∧
    (∀ nv no np nb : ℕ,
      MoveToCircumcenterOperator_poll
        ⟨some ⟨BType.armature, BMode.poseM⟩, nv, no, np, nb⟩ =
          Except.ok (decide (np = 4 ∨ np = 3))) ∧
    (∀ nv no np nb : ℕ,
      MoveToCircumcenterOperator_poll
        ⟨some ⟨BType.armature, BMode.editM⟩, nv, no, np, nb⟩ =
          Except.error "TypeError") := by
  refine ⟨?_, ?_, ?_, ?_⟩
  · intro ty nv no np nb
    by_cases h : no = 4 ∨ no = 3
    · rcases h with h | h <;> subst h <;> cases ty <;> rfl
    · rw [not_or] at h
      obtain ⟨h4, h3⟩ := h
      simp [MoveToCircumcenterOperator_poll, poll_rest, h4, h3]
  · intro nv no np nb
    by_cases h : nv = 4 ∨ nv = 3
    · rcases h with h | h <;> subst h <;> rfl
    · rw [not_or] at h
      obtain ⟨h4, h3⟩ := h
      simp [MoveToCircumcenterOperator_poll, poll_rest, h4, h3]
  · intro nv no np nb
    by_cases h : np = 4 ∨ np = 3
    · rcases h with h | h <;> subst h <;> rfl
    · rw [not_or] at h
      obtain ⟨h4, h3⟩ := h
      simp [MoveToCircumcenterOperator_poll, poll_rest, h4, h3]
  · intro nv no np nb
    rfl

/-- C9: with all other inputs equal, the direction used with `reverse=True`
(`obj.location - cursor_location`) is the exact negation of the direction
used with `reverse=False` (`cursor_location - obj.location`). -/
theorem look_direction_reverse_negates :
    ∀ cursor loc : Vec3,
      look_direction true cursor loc = -(look_direction false cursor loc) := by
  intro cursor loc
  ext <;> simp [look_direction]

/-- C10: the result of `calculate_circumcenter_3d` is invariant under every
permutation of its three arguments — on non-collinear inputs the barycentric
point is the same under all six orders, and on collinear inputs all six
orders raise the same `NameError` (the intended mean fallback is never
reached in any order). -/
theorem circumcenter3d_permutation_invariant :
    ∀ p1 p2 p3 : Vec3,
      calculate_circumcenter_3d p1 p2 p3 = calculate_circumcenter_3d p1 p3 p2 ∧
      calculate_circumcenter_3d p1 p2 p3 = calculate_circumcenter_3d p2 p1 p3 ∧
      calculate_circumcenter_3d p1 p2 p3 = calculate_circumcenter_3d p2 p3 p1 ∧
      calculate_circumcenter_3d p1 p2 p3 = calculate_circumcenter_3d p3 p1 p2 ∧
      calculate_circumcenter_3d p1 p2 p3 = calculate_circumcenter_3d p3 p2 p1 := by
  intro p1 p2 p3
  refine ⟨?_, ?_, ?_, ?_, ?_⟩
  · exact ((calc3d_cycle p2 p1 p3).trans (calc3d_swap12 p1 p2 p3)).symm
  · exact (calc3d_swap12 p1 p2 p3).symm
  · exact (calc3d_cycle p1 p2 p3).symm
  · exact calc3d_cycle p3 p1 p2
  · exact ((calc3d_swap12 p2 p3 p1).trans (calc3d_cycle p1 p2 p3)).symm
